import Mathlib

/-!
Verification development for the LinkedIn multi-page scraper extension
(popup.js orchestrator plus its contentScript.js collaborator).

The definitions below are a shallow embedding of the JavaScript source:
pure string/CSV helpers become Lean functions on String / List Char, the
chrome.storage queue becomes an explicit List String passed through the
operations, the per-item orchestration of handleScrapeClick becomes a
step function over an explicit event describing how the asynchronous
environment behaved for that item, and the setTimeout-based heartbeat
timer becomes a small timed state machine.
-/

namespace Scraper

/-! ## CSV generation (popup.js, generateCSV / quoteCSV / downloadOneRowCSV) -/

/-- JavaScript Array.prototype.join with separator: empty for the empty
array, the sole element for a singleton, otherwise elements interleaved
with the separator. -/
def joinWith (sep : String) : List String → String
  | [] => ""
  | [x] => x
  | x :: y :: xs => x ++ sep ++ joinWith sep (y :: xs)

/-- The replace of popup.js quoteCSV: every double-quote character is
replaced by two double-quote characters. -/
def escapeQuotes : List Char → List Char
  | [] => []
  | c :: rest => if c = '"' then '"' :: '"' :: escapeQuotes rest else c :: escapeQuotes rest

/-- popup.js quoteCSV: wrap the string in double quotes, doubling each
internal double quote.  The JavaScript guard (str or empty string) is the
identity on actual strings, since the only falsy string is the empty
string which the guard maps to itself. -/
def quoteCSV (s : String) : String :=
  String.mk ('"' :: (escapeQuotes s.data ++ ['"']))

/-- The fixed CSV header columns of popup.js (generateCSV and
downloadOneRowCSV use the same literal list). -/
def csvHeader : List String :=
  ["PageURL", "PageName", "Content", "PostDate", "Likes", "Comments"]

/-- The header line: the six column names joined with commas. -/
def csvHeaderLine : String := joinWith "," csvHeader

/-- One extracted post row, as produced by contentScript.js scrapePosts:
all six fields are raw strings. -/
structure Record where
  pageUrl : String
  pageName : String
  content : String
  postDate : String
  likes : String
  comments : String
deriving DecidableEq

/-- The per-record cell list of popup.js generateCSV: all six fields
individually quoted. -/
def generateCSVRow (r : Record) : List String :=
  [quoteCSV r.pageUrl, quoteCSV r.pageName, quoteCSV r.content,
   quoteCSV r.postDate, quoteCSV r.likes, quoteCSV r.comments]

/-- popup.js generateCSV: header row followed by one comma-joined row per
record, all joined with newlines. -/
def generateCSV (dataArray : List Record) : String :=
  joinWith "\n" (csvHeaderLine :: dataArray.map (fun r => joinWith "," (generateCSVRow r)))

/-- The cell list of popup.js downloadOneRowCSV: URL, page name and
content quoted, followed by three literal empty (unquoted) cells for
PostDate, Likes and Comments. -/
def oneRowCells (url pageName content : String) : List String :=
  [quoteCSV url, quoteCSV pageName, quoteCSV content, "", "", ""]

/-- The full CSV text produced by popup.js downloadOneRowCSV: header line
and the single data row, joined with a newline. -/
def downloadOneRowCSVString (url pageName content : String) : String :=
  joinWith "\n" [csvHeaderLine, joinWith "," (oneRowCells url pageName content)]

/-- Modelled from the spec: the repository contains no CSV reader, so this
is the standard CSV cell parser the spec's round-trip property refers to.
Collapse each doubled double-quote back into a single one. -/
def collapseQuotes : List Char → List Char
  | [] => []
  | [c] => [c]
  | c1 :: c2 :: rest =>
    if c1 = '"' ∧ c2 = '"' then '"' :: collapseQuotes rest
    else c1 :: collapseQuotes (c2 :: rest)

/-- Modelled from the spec: a standard CSV parser applied to one quoted
cell.  It accepts a cell that starts and ends with a double quote, strips
those outer quotes, and collapses each doubled internal quote; anything
else is not a well-formed quoted cell. -/
def parseCSVCell (s : String) : Option String :=
  if 2 ≤ s.data.length ∧ s.data.head? = some '"' ∧ s.data.getLast? = some '"'
  then some (String.mk (collapseQuotes s.data.tail.dropLast))
  else none

/-! ## Result classification (popup.js handleScrapeClick, lines 69-97) -/

/-- The outcome classification the loop body applies to a resolved
extraction payload. -/
inductive Outcome where
  | emptyNoContent
  | emptySentinel (r : Record)
  | success (d : List Record)
deriving DecidableEq

/-- popup.js lines 69-97: an empty payload is the generic no-post case; a
payload of exactly one record whose pageName is the not-found sentinel and
whose content is the no-post sentinel is the unclaimed-page case; anything
else is a success. -/
def classifyScrape (d : List Record) : Outcome :=
  match d with
  | [] => Outcome.emptyNoContent
  | [r] =>
    if r.pageName = "not found" ∧ r.content = "no post" then Outcome.emptySentinel r
    else Outcome.success [r]
  | _ => Outcome.success d

/-- One per-item CSV download performed by popup.js: either a
downloadOneRowCSV call (with its pageName and content arguments) or a
downloadCSV of generateCSV output for a record list.  The url is the work
item the download was made for. -/
inductive Emit where
  | oneRow (url pageName content : String)
  | fullCSV (url : String) (d : List Record)
deriving DecidableEq

/-- The work item an emitted artifact belongs to. -/
def Emit.url : Emit → String
  | Emit.oneRow u _ _ => u
  | Emit.fullCSV u _ => u

/-- The CSV text of an emitted artifact. -/
def renderEmit : Emit → String
  | Emit.oneRow u pn c => downloadOneRowCSVString u pn c
  | Emit.fullCSV _ d => generateCSV d

/-- The artifact the loop body emits for a resolved extraction payload:
the generic one-row no-post CSV for an empty payload, and a generateCSV
artifact otherwise (both the sentinel branch at lines 88-89 and the
success branch at lines 96-97 call generateCSV on the payload). -/
def emitForResolution (url : String) (d : List Record) : Emit :=
  match classifyScrape d with
  | Outcome.emptyNoContent => Emit.oneRow url "not found" "no post"
  | Outcome.emptySentinel r => Emit.fullCSV url [r]
  | Outcome.success dd => Emit.fullCSV url dd

/-! ## Queue storage (popup.js, chrome.storage logic) -/

/-- popup.js removeUrlFromStorage: reload the queue, keep exactly the
entries different from the given url, persist the result.  The persisted
queue is the explicit argument and return value here. -/
def removeUrlFromStorage (q : List String) (url : String) : List String :=
  q.filter (fun item => item != url)

/-- JavaScript String.prototype.trim: drop leading and trailing
whitespace. -/
def jsTrim (s : String) : String :=
  String.mk (((s.data.dropWhile Char.isWhitespace).reverse.dropWhile Char.isWhitespace).reverse)

/-- The filter predicate of popup.js fetchChunkFile, arr.filter of
u and u.trim(): the entry must be present (not null or undefined), be a
non-empty string, and still be non-empty after trimming.  A missing entry
is `none`. -/
def chunkEntryKept : Option String → Bool
  | none => false
  | some s => (s != "") && (jsTrim s != "")

/-- popup.js fetchChunkFile, after the JSON parse: filter the fetched
array with the truthiness test on each entry and its trim. -/
def fetchChunkFile (arr : List (Option String)) : List (Option String) :=
  arr.filter chunkEntryKept

/-- Written from the spec's words, for comparison with fetchChunkFile: an
entry is blank when it is null or undefined, empty, or consists only of
whitespace. -/
def isBlankEntry : Option String → Bool
  | none => true
  | some s => s.data.all Char.isWhitespace

/-! ## The main loop (popup.js handleScrapeClick, lines 36-119)

One iteration takes the freshly loaded queue, its head url, and an event
describing what the asynchronous environment did for that item:

* navFail: tab lookup or navigation threw before extraction;
* resolve d: scrapeTab resolved with payload d before the 30 s heartbeat
  timer expired;
* reject: scrapeTab rejected (runtime error or no response) before the
  timer expired;
* stallThenResolve d: the timer expired with no heartbeat, so the stall
  handler ran skipUrl, and the pending scrapeTab call resolved with d
  afterwards;
* stallThenReject: the timer expired and skipUrl ran, and scrapeTab
  rejected afterwards (caught by the per-item catch, which runs skipUrl
  again);
* stallNoSettle: the timer expired and skipUrl ran, and scrapeTab never
  settles, so the await never returns.
-/

inductive ScrapeEvent where
  | navFail
  | resolve (d : List Record)
  | reject
  | stallThenResolve (d : List Record)
  | stallThenReject
  | stallNoSettle
deriving DecidableEq

/-- Whether the event settles the item without the stall timer firing. -/
def ScrapeEvent.settlesWithoutStall : ScrapeEvent → Bool
  | ScrapeEvent.navFail => true
  | ScrapeEvent.resolve _ => true
  | ScrapeEvent.reject => true
  | ScrapeEvent.stallThenResolve _ => false
  | ScrapeEvent.stallThenReject => false
  | ScrapeEvent.stallNoSettle => false

/-- The observable effects of one loop iteration: the per-item CSV
downloads in order, the persisted queue afterwards, the chunk-updated
snapshots downloaded (each is the queue content at snapshot time), and
whether control reaches the next iteration. -/
structure IterResult where
  emits : List Emit
  queue : List String
  snapshots : List (List String)
  continues : Bool
deriving DecidableEq

/-- One iteration of the while loop of handleScrapeClick, lines 44-118,
given the loaded queue q, the current url (its head), and the event.  The
skipUrl helper (lines 130-135) emits the one-row skipped CSV, removes the
url and snapshots the queue; the stall branches run it from the timer
callback and then, if scrapeTab still settles, fall through to the rest of
the iteration body (resolution at lines 67-110, rejection at the catch of
lines 112-118, which runs skipUrl a second time). -/
def processIteration (q : List String) (url : String) (ev : ScrapeEvent) : IterResult :=
  match ev with
  | ScrapeEvent.navFail =>
    { emits := [Emit.oneRow url "skipped" "no post or error"]
      queue := removeUrlFromStorage q url
      snapshots := [removeUrlFromStorage q url]
      continues := true }
  | ScrapeEvent.reject =>
    { emits := [Emit.oneRow url "skipped" "no post or error"]
      queue := removeUrlFromStorage q url
      snapshots := [removeUrlFromStorage q url]
      continues := true }
  | ScrapeEvent.resolve d =>
    { emits := [emitForResolution url d]
      queue := removeUrlFromStorage q url
      snapshots := [removeUrlFromStorage q url]
      continues := true }
  | ScrapeEvent.stallThenResolve d =>
    { emits := [Emit.oneRow url "skipped" "no post or error", emitForResolution url d]
      queue := removeUrlFromStorage (removeUrlFromStorage q url) url
      snapshots := [removeUrlFromStorage q url,
                    removeUrlFromStorage (removeUrlFromStorage q url) url]
      continues := true }
  | ScrapeEvent.stallThenReject =>
    { emits := [Emit.oneRow url "skipped" "no post or error",
                Emit.oneRow url "skipped" "no post or error"]
      queue := removeUrlFromStorage (removeUrlFromStorage q url) url
      snapshots := [removeUrlFromStorage q url,
                    removeUrlFromStorage (removeUrlFromStorage q url) url]
      continues := true }
  | ScrapeEvent.stallNoSettle =>
    { emits := [Emit.oneRow url "skipped" "no post or error"]
      queue := removeUrlFromStorage q url
      snapshots := [removeUrlFromStorage q url]
      continues := false }

/-- How a run of the main loop ended: the empty-queue check broke out of
the loop; the loop is blocked forever on an await that never settles; or
the step budget ran out (unreachable when the budget is at least the
queue length, since every continuing iteration shortens the queue). -/
inductive LoopEnd where
  | emptyQueue
  | blocked
  | outOfFuel
deriving DecidableEq

/-- The observable outcome of a whole run: final persisted queue, all
per-item CSV downloads in order, all chunk snapshots in order, and how the
loop ended. -/
structure RunResult where
  queue : List String
  emits : List Emit
  snapshots : List (List String)
  ending : LoopEnd
deriving DecidableEq

/-- The while loop of handleScrapeClick, with an explicit step budget for
structural recursion: reload the queue, stop when it is empty, otherwise
run one iteration on its head (the environment behaviour for each url is
given by the oracle) and continue unless the iteration blocked. -/
def runLoopFuel (oracle : String → ScrapeEvent) : Nat → List String → RunResult
  | _, [] => { queue := [], emits := [], snapshots := [], ending := LoopEnd.emptyQueue }
  | 0, q => { queue := q, emits := [], snapshots := [], ending := LoopEnd.outOfFuel }
  | fuel + 1, url :: rest =>
    let it := processIteration (url :: rest) url (oracle url)
    if it.continues then
      let r := runLoopFuel oracle fuel it.queue
      { queue := r.queue
        emits := it.emits ++ r.emits
        snapshots := it.snapshots ++ r.snapshots
        ending := r.ending }
    else
      { queue := it.queue, emits := it.emits, snapshots := it.snapshots
        ending := LoopEnd.blocked }

/-- The main loop run to completion: a budget of the initial queue length
always suffices because every continuing iteration removes at least the
head of the queue. -/
def runLoop (oracle : String → ScrapeEvent) (q : List String) : RunResult :=
  runLoopFuel oracle q.length q

/-! ## The heartbeat timer (popup.js lines 140-162)

A timed model of the three timer functions.  The state records the current
time, whether the heartbeatTimer variable is non-null (it keeps a stale
handle after its timeout has fired, since the callbacks never null it),
the live pending setTimeout if any (absolute deadline, and whether its
callback is the onTimeout handler passed to startHeartbeatTimer — the
timeout re-armed by resetHeartbeatTimer carries a callback that only logs
a warning), and how many times the onTimeout stall handler has run.
-/

structure HBState where
  now : Nat
  timerSet : Bool
  pending : Option (Nat × Bool)
  stallFires : Nat
deriving DecidableEq

/-- Advance the clock to time t, firing the pending timeout if its
deadline is strictly passed.  Only a pending timeout whose callback is the
original onTimeout counts as a stall firing; the timeout re-armed by
resetHeartbeatTimer only logs.  The heartbeatTimer variable keeps its
stale value after firing. -/
def hbAdvance (t : Nat) (s : HBState) : HBState :=
  match s.pending with
  | some (d, orig) =>
    if d < t then
      { now := t, timerSet := s.timerSet, pending := none
        stallFires := s.stallFires + (if orig then 1 else 0) }
    else
      { s with now := t }
  | none => { s with now := t }

/-- popup.js startHeartbeatTimer at time t: clear any pending timeout and
arm a fresh one for t + timeout whose callback is the onTimeout stall
handler. -/
def hbStart (timeout t : Nat) (s : HBState) : HBState :=
  { hbAdvance t s with timerSet := true, pending := some (t + timeout, true) }

/-- popup.js resetHeartbeatTimer at time t (run on each heartbeat
message): if the heartbeatTimer variable is set, clear the pending timeout
and arm a fresh one for t + timeout whose callback only logs a warning. -/
def hbPing (timeout t : Nat) (s : HBState) : HBState :=
  let s1 := hbAdvance t s
  if s1.timerSet then { s1 with pending := some (t + timeout, false) } else s1

/-- popup.js clearHeartbeatTimer at time t: cancel the pending timeout and
null the variable. -/
def hbCancel (t : Nat) (s : HBState) : HBState :=
  { hbAdvance t s with timerSet := false, pending := none }

/-- An observable event sent to the timer: a heartbeat ping or a cancel,
each at an absolute time. -/
inductive HBEvent where
  | ping (t : Nat)
  | cancel (t : Nat)
deriving DecidableEq

/-- Dispatch one timer event. -/
def hbStep (timeout : Nat) (s : HBState) : HBEvent → HBState
  | HBEvent.ping t => hbPing timeout t s
  | HBEvent.cancel t => hbCancel t s

/-- Initial timer state: clock at zero, variable null, nothing pending. -/
def hbInit : HBState :=
  { now := 0, timerSet := false, pending := none, stallFires := 0 }

/-- A monitored run: arm at time t0 with the given timeout, process the
events in order, then advance the clock to tEnd. -/
def hbRun (timeout t0 : Nat) (evs : List HBEvent) (tEnd : Nat) : HBState :=
  hbAdvance tEnd (evs.foldl (hbStep timeout) (hbStart timeout t0 hbInit))

/-- Concrete extraction record used in the stall-race evaluation below. -/
def sampleRecord : Record :=
  { pageUrl := "https://x/a", pageName := "Acme", content := "hello"
    postDate := "2024-01-01 00:00:00", likes := "5", comments := "2" }

/-! ## Helper lemmas -/

theorem escapeQuotes_ne_nil (c : Char) (l : List Char) :
    escapeQuotes (c :: l) ≠ [] := by
  by_cases hc : c = '"' <;> simp [escapeQuotes, hc]

theorem collapseQuotes_escapeQuotes (l : List Char) :
    collapseQuotes (escapeQuotes l) = l := by
  induction l with
  | nil => rfl
  | cons c rest ih =>
    by_cases hc : c = '"'
    · subst hc
      simp [escapeQuotes, collapseQuotes, ih]
    · cases hrest : escapeQuotes rest with
      | nil =>
        have hr : rest = [] := by
          cases rest with
          | nil => rfl
          | cons a t => exact absurd hrest (escapeQuotes_ne_nil a t)
        subst hr
        simp [escapeQuotes, collapseQuotes, hc]
      | cons a t =>
        have hcond : ¬ (c = '"' ∧ a = '"') := fun h => hc h.1
        calc collapseQuotes (escapeQuotes (c :: rest))
            = collapseQuotes (c :: escapeQuotes rest) := by
              simp only [escapeQuotes, if_neg hc]
          _ = collapseQuotes (c :: a :: t) := by rw [hrest]
          _ = c :: collapseQuotes (a :: t) := by
              simp only [collapseQuotes, if_neg hcond]
          _ = c :: collapseQuotes (escapeQuotes rest) := by rw [← hrest]
          _ = c :: rest := by rw [ih]

theorem quoteCSV_data (s : String) :
    (quoteCSV s).data = '"' :: (escapeQuotes s.data ++ ['"']) := rfl

theorem quoteCSV_ne_empty (s : String) : quoteCSV s ≠ "" := by
  intro h
  have h2 := congrArg String.data h
  simp [quoteCSV_data] at h2

theorem removeUrl_mem_ne (q : List String) (u x : String)
    (hx : x ∈ removeUrlFromStorage q u) : x ≠ u := by
  have := (List.mem_filter.mp hx).2
  exact bne_iff_ne.mp this

theorem removeUrl_cons_self (u : String) (q : List String) :
    removeUrlFromStorage (u :: q) u = removeUrlFromStorage q u := by
  simp [removeUrlFromStorage, List.filter_cons]

theorem removeUrl_sublist (q : List String) (u : String) :
    List.Sublist (removeUrlFromStorage q u) q :=
  List.filter_sublist q

theorem removeUrl_idem (q : List String) (u : String) :
    removeUrlFromStorage (removeUrlFromStorage q u) u = removeUrlFromStorage q u :=
  List.filter_eq_self.mpr (fun _ ha => (List.mem_filter.mp ha).2)

theorem mem_removeUrl (q : List String) (u v : String) :
    v ∈ removeUrlFromStorage q u ↔ v ∈ q ∧ v ≠ u := by
  simp [removeUrlFromStorage, List.mem_filter, bne_iff_ne]

theorem forall_dropWhile_iff (p : Char → Bool) (l : List Char) :
    (∀ x ∈ l.dropWhile p, p x = true) ↔ (∀ x ∈ l, p x = true) := by
  constructor
  · intro h x hx
    rw [← List.takeWhile_append_dropWhile p l] at hx
    rcases List.mem_append.mp hx with h1 | h2
    · exact List.mem_takeWhile_imp h1
    · exact h x h2
  · intro h x hx
    have hx2 : x ∈ l := by
      rw [← List.takeWhile_append_dropWhile p l]
      exact List.mem_append.mpr (Or.inr hx)
    exact h x hx2

theorem jsTrim_eq_empty_iff (s : String) :
    jsTrim s = "" ↔ s.data.all Char.isWhitespace = true := by
  rw [String.ext_iff]
  show ((s.data.dropWhile Char.isWhitespace).reverse.dropWhile
      Char.isWhitespace).reverse = ("" : String).data ↔ _
  rw [show ("" : String).data = [] from rfl]
  rw [List.reverse_eq_nil_iff, List.dropWhile_eq_nil_iff]
  simp only [List.mem_reverse]
  rw [forall_dropWhile_iff, List.all_eq_true]

theorem chunkEntryKept_eq_not_blank (u : Option String) :
    chunkEntryKept u = !(isBlankEntry u) := by
  cases u with
  | none => rfl
  | some s =>
    show ((s != "") && (jsTrim s != "")) = !(s.data.all Char.isWhitespace)
    cases hall : s.data.all Char.isWhitespace with
    | true =>
      have h1 : jsTrim s = "" := (jsTrim_eq_empty_iff s).mpr hall
      rw [h1]
      simp
    | false =>
      have hs : s ≠ "" := by
        intro h
        subst h
        simp at hall
      have ht : jsTrim s ≠ "" := by
        intro h
        rw [(jsTrim_eq_empty_iff s).mp h] at hall
        cases hall
      rw [bne_iff_ne.mpr hs, bne_iff_ne.mpr ht]
      rfl

theorem joinWith_cons_isPrefixed (sep x : String) (l : List String) :
    ∃ rest, joinWith sep (x :: l) = x ++ rest := by
  cases l with
  | nil =>
    refine ⟨"", ?_⟩
    show x = x ++ ""
    simp
  | cons y ys =>
    exact ⟨sep ++ joinWith sep (y :: ys), String.append_assoc x sep (joinWith sep (y :: ys))⟩

/-! ## Claim theorems -/

/-- Claim C6: removeOne is idempotent — removing an identifier that is
already absent leaves the persisted queue unchanged, so a second call with
the same identifier after the first is a no-op. -/
theorem C6_removeOne_idempotent (q : List String) (u : String) :
    (u ∉ q → removeUrlFromStorage q u = q) ∧
    removeUrlFromStorage (removeUrlFromStorage q u) u = removeUrlFromStorage q u := by
  refine ⟨fun hu => ?_, removeUrl_idem q u⟩
  refine List.filter_eq_self.mpr (fun a ha => ?_)
  exact bne_iff_ne.mpr (fun h => hu (h ▸ ha))

/-- Claim C6 witness: on the concrete queue ["a"], removing the absent
identifier "b" leaves the queue unchanged. -/
theorem C6_removeOne_idempotent_witness :
    ("b" ∉ (["a"] : List String)) ∧ removeUrlFromStorage ["a"] "b" = ["a"] :=
  ⟨by decide, (C6_removeOne_idempotent ["a"] "b").1 (by decide)⟩

/-- Claim C7: removeOne removes every entry equal to the identifier and
leaves all other entries untouched — no entry different from the
identifier changes multiplicity, and the survivors keep their relative
order (the result is a sublist of the original queue). -/
theorem C7_removeOne_frame (q : List String) (u : String) :
    (∀ x ∈ removeUrlFromStorage q u, x ≠ u) ∧
    (∀ v, v ≠ u → (removeUrlFromStorage q u).count v = q.count v) ∧
    List.Sublist (removeUrlFromStorage q u) q := by
  refine ⟨fun x hx => removeUrl_mem_ne q u x hx, fun v hv => ?_, removeUrl_sublist q u⟩
  exact List.count_filter (bne_iff_ne.mpr hv)

/-- Claim C7 witness: removing "a" from ["a", "b", "a"] keeps the count of
the unrelated entry "b". -/
theorem C7_removeOne_frame_witness :
    ("b" ≠ "a") ∧ (removeUrlFromStorage ["a", "b", "a"] "a").count "b" =
      (["a", "b", "a"] : List String).count "b" :=
  ⟨by decide, (C7_removeOne_frame ["a", "b", "a"] "a").2.1 "b" (by decide)⟩

/-- Claim C8: quoting any string with the artifact emitter's quoteCSV and
re-parsing the quoted cell with a standard CSV parser (strip the outer
quotes, collapse doubled quotes) reproduces the original string exactly,
including strings containing embedded quotes, commas or newlines. -/
theorem C8_csv_roundtrip (s : String) : parseCSVCell (quoteCSV s) = some s := by
  have hdata : (quoteCSV s).data = ('"' :: escapeQuotes s.data) ++ ['"'] := by
    simp [quoteCSV_data]
  have hcond : 2 ≤ (quoteCSV s).data.length ∧
      (quoteCSV s).data.head? = some '"' ∧ (quoteCSV s).data.getLast? = some '"' := by
    refine ⟨?_, ?_, ?_⟩
    · rw [quoteCSV_data]; simp
    · rw [quoteCSV_data]; rfl
    · rw [hdata]; exact List.getLast?_concat _
  rw [parseCSVCell, if_pos hcond]
  have htail : (quoteCSV s).data.tail = escapeQuotes s.data ++ ['"'] := by
    rw [quoteCSV_data]; rfl
  rw [htail, List.dropLast_concat, collapseQuotes_escapeQuotes]

/-- Claim C10: when seeding the queue from the external source list,
entries that are missing (null or undefined), empty, or whitespace-only
are dropped, and all remaining entries are kept verbatim in their
original order — the seeded list equals the source filtered to its
non-blank entries, and is a sublist of the source. -/
theorem C10_seed_filters_blank_entries (arr : List (Option String)) :
    fetchChunkFile arr = arr.filter (fun u => !(isBlankEntry u)) ∧
    List.Sublist (fetchChunkFile arr) arr := by
  constructor
  · exact List.filter_congr (fun u _ => chunkEntryKept_eq_not_blank u)
  · exact List.filter_sublist arr

/-- Claim C4: a payload of exactly one record whose pageName equals the
not-found sentinel and whose content equals the no-post sentinel is
classified as the sentinel empty case, not as Success, and is emitted as
the one-row generateCSV artifact carrying that record, not as the generic
one-row placeholder. -/
theorem C4_sentinel_classification (url : String) (r : Record)
    (h1 : r.pageName = "not found") (h2 : r.content = "no post") :
    classifyScrape [r] = Outcome.emptySentinel r ∧
    (∀ d, classifyScrape [r] ≠ Outcome.success d) ∧
    emitForResolution url [r] = Emit.fullCSV url [r] ∧
    (∀ pn c, emitForResolution url [r] ≠ Emit.oneRow url pn c) := by
  have hc : classifyScrape [r] = Outcome.emptySentinel r := by
    simp [classifyScrape, h1, h2]
  have he : emitForResolution url [r] = Emit.fullCSV url [r] := by
    simp only [emitForResolution, hc]
  refine ⟨hc, ?_, he, ?_⟩
  · intro d h
    rw [hc] at h
    exact Outcome.noConfusion h
  · intro pn c h
    rw [he] at h
    exact Emit.noConfusion h

/-- Claim C4 witness: the concrete sentinel record is classified as the
sentinel empty case. -/
theorem C4_sentinel_classification_witness :
    ((⟨"u", "not found", "no post", "", "", ""⟩ : Record).pageName = "not found") ∧
    classifyScrape [(⟨"u", "not found", "no post", "", "", ""⟩ : Record)] =
      Outcome.emptySentinel ⟨"u", "not found", "no post", "", "", ""⟩ :=
  ⟨rfl, (C4_sentinel_classification "u" ⟨"u", "not found", "no post", "", "", ""⟩ rfl rfl).1⟩

/-- Claim C9 counterexample: the one-row skipped artifact has the empty
string as its PostDate cell, and the empty string is not the quoting of
any string, so not every string field of every data row is individually
quoted as the claim states. -/
theorem C9_counterexample_unquoted_cell :
    "" ∈ oneRowCells "u" "skipped" "no post or error" ∧
    ∀ s : String, quoteCSV s ≠ "" := by
  constructor
  · simp [oneRowCells]
  · exact quoteCSV_ne_empty

/-- Claim C9 (amended): every emitted artifact begins with the fixed
six-column header line; every cell of every generateCSV data row (success
and sentinel artifacts) is an individually quoted field; but in the
one-row artifacts produced by downloadOneRowCSV only the PageURL,
PageName and Content cells are quoted, while the PostDate, Likes and
Comments cells are unquoted empty cells. -/
theorem C9_header_and_quoting :
    (∀ e : Emit, ∃ rest, renderEmit e = csvHeaderLine ++ rest) ∧
    (∀ r : Record, ∀ c ∈ generateCSVRow r, ∃ s, c = quoteCSV s) ∧
    (∀ url pn ct, oneRowCells url pn ct =
      [quoteCSV url, quoteCSV pn, quoteCSV ct, "", "", ""]) := by
  refine ⟨?_, ?_, fun url pn ct => rfl⟩
  · intro e
    cases e with
    | oneRow u pn c => exact joinWith_cons_isPrefixed "\n" csvHeaderLine _
    | fullCSV u d => exact joinWith_cons_isPrefixed "\n" csvHeaderLine _
  · intro r c hc
    simp only [generateCSVRow, List.mem_cons, List.not_mem_nil, or_false] at hc
    rcases hc with h | h | h | h | h | h <;> exact ⟨_, h⟩

/-- Claim C9 witness: in a concrete generateCSV row, the PageURL cell is
the quoting of the record's pageUrl. -/
theorem C9_header_and_quoting_witness :
    (quoteCSV "p" ∈ generateCSVRow ⟨"p", "n", "c", "d", "l", "m"⟩) ∧
    (∃ s, quoteCSV "p" = quoteCSV s) :=
  ⟨by simp [generateCSVRow],
   C9_header_and_quoting.2.1 ⟨"p", "n", "c", "d", "l", "m"⟩ (quoteCSV "p")
     (by simp [generateCSVRow])⟩

theorem emitForResolution_url (url : String) (d : List Record) :
    Emit.url (emitForResolution url d) = url := by
  cases h : classifyScrape d <;> simp [emitForResolution, h, Emit.url]

theorem processIteration_noStall (q : List String) (url : String) (ev : ScrapeEvent)
    (h : ev.settlesWithoutStall = true) :
    (processIteration q url ev).continues = true ∧
    (processIteration q url ev).queue = removeUrlFromStorage q url ∧
    ∃ e : Emit, (processIteration q url ev).emits = [e] ∧ Emit.url e = url := by
  cases ev with
  | navFail => exact ⟨rfl, rfl, _, rfl, rfl⟩
  | reject => exact ⟨rfl, rfl, _, rfl, rfl⟩
  | resolve d => exact ⟨rfl, rfl, _, rfl, emitForResolution_url url d⟩
  | stallThenResolve d => exact absurd h (by simp [ScrapeEvent.settlesWithoutStall])
  | stallThenReject => exact absurd h (by simp [ScrapeEvent.settlesWithoutStall])
  | stallNoSettle => exact absurd h (by simp [ScrapeEvent.settlesWithoutStall])

theorem runLoopFuel_cons_continue (oracle : String → ScrapeEvent) (n : Nat)
    (url : String) (rest : List String)
    (h : (processIteration (url :: rest) url (oracle url)).continues = true) :
    runLoopFuel oracle (n + 1) (url :: rest) =
      { queue := (runLoopFuel oracle n
          (processIteration (url :: rest) url (oracle url)).queue).queue
        emits := (processIteration (url :: rest) url (oracle url)).emits ++
          (runLoopFuel oracle n
            (processIteration (url :: rest) url (oracle url)).queue).emits
        snapshots := (processIteration (url :: rest) url (oracle url)).snapshots ++
          (runLoopFuel oracle n
            (processIteration (url :: rest) url (oracle url)).queue).snapshots
        ending := (runLoopFuel oracle n
          (processIteration (url :: rest) url (oracle url)).queue).ending } := by
  simp [runLoopFuel, h]

theorem runLoopFuel_noStall (oracle : String → ScrapeEvent)
    (hall : ∀ u, (oracle u).settlesWithoutStall = true) :
    ∀ fuel q, q.length ≤ fuel →
      (runLoopFuel oracle fuel q).ending = LoopEnd.emptyQueue ∧
      (runLoopFuel oracle fuel q).queue = [] ∧
      ∀ v, ((runLoopFuel oracle fuel q).emits.filter
          (fun e => Emit.url e == v)).length = if v ∈ q then 1 else 0 := by
  intro fuel
  induction fuel with
  | zero =>
    intro q hq
    have hnil : q = [] := List.eq_nil_of_length_eq_zero (Nat.le_zero.mp hq)
    subst hnil
    exact ⟨rfl, rfl, fun v => by simp [runLoopFuel]⟩
  | succ n ih =>
    intro q hq
    cases q with
    | nil => exact ⟨rfl, rfl, fun v => by simp [runLoopFuel]⟩
    | cons url rest =>
      obtain ⟨hc, hqueue, e, hemits, hurl⟩ :=
        processIteration_noStall (url :: rest) url (oracle url) (hall url)
      have hstep := runLoopFuel_cons_continue oracle n url rest hc
      have hlen : (processIteration (url :: rest) url (oracle url)).queue.length ≤ n := by
        rw [hqueue, removeUrl_cons_self]
        have h1 := List.length_filter_le (fun item => item != url) rest
        have h2 : rest.length ≤ n := by
          simp only [List.length_cons] at hq
          omega
        exact le_trans h1 h2
      obtain ⟨hend, hqnil, hcount⟩ := ih _ hlen
      refine ⟨by rw [hstep]; exact hend, by rw [hstep]; exact hqnil, fun v => ?_⟩
      rw [hstep]
      simp only [hemits, List.singleton_append, List.filter_cons]
      by_cases hv : v = url
      · subst hv
        have hb : (Emit.url e == v) = true := by
          rw [hurl]
          exact beq_self_eq_true v
        rw [if_pos hb, List.length_cons, hcount v, hqueue, removeUrl_cons_self]
        have hnot : v ∉ removeUrlFromStorage rest v :=
          fun hmem => (removeUrl_mem_ne rest v v hmem) rfl
        simp [hnot]
      · have hb : ¬ ((Emit.url e == v) = true) := by
          rw [hurl]
          simp [beq_eq_false_iff_ne.mpr (fun hh => hv (hh.symm))]
        rw [if_neg hb, hcount v, hqueue, removeUrl_cons_self]
        have hv2 : v ∈ removeUrlFromStorage rest url ↔ v ∈ rest := by
          rw [mem_removeUrl]
          exact ⟨fun hh => hh.1, fun hh => ⟨hh, hv⟩⟩
        simp [hv2, List.mem_cons, hv]

/-- Claim C3 counterexample: for the duplicate-containing source list
["a", "a"] with every extraction resolving empty, the loop terminates via
empty-queue detection with the queue empty but only one artifact emitted
in total — not one per original list entry (two), because the first
removal deletes all entries equal to the processed URL, so the duplicate
is dropped without being processed. -/
theorem C3_counterexample_duplicates :
    (runLoop (fun _ => ScrapeEvent.resolve []) ["a", "a"]).ending = LoopEnd.emptyQueue ∧
    (runLoop (fun _ => ScrapeEvent.resolve []) ["a", "a"]).queue = [] ∧
    (runLoop (fun _ => ScrapeEvent.resolve []) ["a", "a"]).emits =
      [Emit.oneRow "a" "not found" "no post"] ∧
    (runLoop (fun _ => ScrapeEvent.resolve []) ["a", "a"]).emits.length ≠
      (["a", "a"] : List String).length := by
  refine ⟨rfl, rfl, rfl, ?_⟩
  decide

/-- Claim C3 (amended): for every initial source list, if every item
settles without the stall timer firing, the loop terminates via
empty-queue detection with the persisted queue empty and exactly one
artifact emitted per distinct URL value of the list; duplicate entries
are not processed independently — the first completion removes every
equal entry, so later duplicates get no artifact of their own. -/
theorem C3_loop_terminates_one_artifact_per_distinct_url
    (oracle : String → ScrapeEvent)
    (hall : ∀ u, (oracle u).settlesWithoutStall = true) (q : List String) :
    (runLoop oracle q).ending = LoopEnd.emptyQueue ∧
    (runLoop oracle q).queue = [] ∧
    ∀ v, ((runLoop oracle q).emits.filter
        (fun e => Emit.url e == v)).length = if v ∈ q then 1 else 0 :=
  runLoopFuel_noStall oracle hall q.length q (Nat.le_refl _)

/-- Claim C3 witness: a concrete all-resolving run on ["a", "b"] ends with
the empty queue. -/
theorem C3_loop_witness :
    (∀ _u : String, (ScrapeEvent.resolve []).settlesWithoutStall = true) ∧
    (runLoop (fun _ => ScrapeEvent.resolve []) ["a", "b"]).queue = [] :=
  ⟨fun _ => rfl,
   (C3_loop_terminates_one_artifact_per_distinct_url
     (fun _ => ScrapeEvent.resolve []) (fun _ => rfl) ["a", "b"]).2.1⟩

/-- Claim C1 evaluated at the failing input: when the stall fires for an
item (emitting the skipped one-row artifact and removing the item) and the
extract call later resolves with one real record, the late resolution is
not discarded — the iteration emits a second artifact (the full CSV for
the resolved data) and runs the queue removal and snapshot again, contrary
to the claim that the late resolution produces no additional artifact and
no additional queue mutation. -/
theorem C1_late_resolution_not_discarded :
    (processIteration ["a"] "a" (ScrapeEvent.stallThenResolve [sampleRecord])).emits =
      [Emit.oneRow "a" "skipped" "no post or error", Emit.fullCSV "a" [sampleRecord]] ∧
    (processIteration ["a"] "a" (ScrapeEvent.stallThenResolve [sampleRecord])).emits.length = 2 ∧
    (processIteration ["a"] "a" (ScrapeEvent.stallThenResolve [sampleRecord])).snapshots.length = 2 := by
  refine ⟨?_, rfl, rfl⟩
  show [Emit.oneRow "a" "skipped" "no post or error",
        emitForResolution "a" [sampleRecord]] = _
  rw [emitForResolution]
  rfl

/-- Claim C2 evaluated at the failing input: with the 30000 ms timeout
armed at time 0, a single heartbeat ping at time 10000 (strictly within
the window) re-arms a timeout whose callback only logs, so when the clock
reaches 100000 — 90000 ms after the last ping, far beyond the timeout —
the stall handler has fired zero times, not exactly once as the claim
states; with no ping at all the original deadline does fire the stall
handler exactly once. -/
theorem C2_rearmed_deadline_never_fires_stall :
    (hbRun 30000 0 [HBEvent.ping 10000] 100000).stallFires = 0 ∧
    (hbRun 30000 0 [] 100000).stallFires = 1 := by
  decide

/-- Claim C5 evaluated at the failing input: on the queue ["a", "b"],
when item "a" hits the stall timeout and its extract call never settles,
the skipped artifact is emitted and "a" is removed with a persisted
snapshot, but the loop does not continue to the next item — it stays
blocked on the pending await, so "b" is never processed, contrary to the
claim that no per-item outcome halts the loop. -/
theorem C5_stall_without_settle_blocks_loop :
    runLoop (fun u => if u == "a" then ScrapeEvent.stallNoSettle else ScrapeEvent.resolve [])
        ["a", "b"] =
      { queue := ["b"]
        emits := [Emit.oneRow "a" "skipped" "no post or error"]
        snapshots := [["b"]]
        ending := LoopEnd.blocked } := by
  decide

end Scraper
